import Mathlib

/-!
Shallow embedding of the streamyfin playback-session controller
(src/app/(auth)/player/transcoding-player.tsx), the video-source builder
(src/components/VideoPlayer.tsx) and the download action (DownloadItem
component), together with theorems settling the frozen claims about them.

JavaScript semantics modelled explicitly:
  - optional values (`undefined`) become `Option`;
  - JS truthiness on numbers (`x ? x : undefined`) keeps every value except 0;
  - JS truthiness on strings rejects the empty string;
  - `Math.floor` / `Math.round` become `Rat.floor`-based functions on `ℚ`
    (JS numbers are used here only at values where float rounding is exact);
  - `Array.from(new Set(..))` keeps first occurrences in insertion order;
  - `Array.prototype.indexOf` returns the first matching index or -1.
-/

namespace Streamyfin

/-- Models the JS truthiness guard `i ? i : undefined` on a `number |
undefined` value: 0 (falsy) becomes absent, every other integer is kept. -/
def truthyIdx : Option Int → Option Int
  | none => none
  | some i => if i = 0 then none else some i

/-- Models the JS truthiness guard on a `string | undefined` value: the empty
string (falsy) becomes absent. -/
def truthyStr : Option String → Option String
  | none => none
  | some s => if s = "" then none else some s

/-- `Math.floor` on an exact rational value. -/
def jsFloor (q : ℚ) : Int := q.floor

/-- `Math.round` on an exact rational value (rounds half toward +∞, as JS). -/
def jsRound (q : ℚ) : Int := (q + 1/2).floor

/-- Whether `needle` occurs at the head of `hay` (character lists). -/
def charsHasPre : List Char → List Char → Bool
  | [], _ => true
  | _ :: _, [] => false
  | a :: as, b :: bs => a == b && charsHasPre as bs

/-- Whether `needle` occurs anywhere inside `hay` (character lists). -/
def charsContains (needle : List Char) : List Char → Bool
  | [] => charsHasPre needle []
  | c :: rest => charsHasPre needle (c :: rest) || charsContains needle rest

/-- Models `String.prototype.includes`. -/
def strContains (needle s : String) : Bool :=
  charsContains needle.data s.data

/-- Models `Array.prototype.indexOf` (value equality; -1 when absent). -/
def jsIndexOf [DecidableEq α] : List α → α → Int
  | [], _ => -1
  | b :: bs, a =>
    if b = a then 0
    else
      let r := jsIndexOf bs a
      if r = -1 then -1 else r + 1

/-- Worker for `setFromList`: `seen` collects the values already emitted. -/
def setGo [DecidableEq α] (seen : List α) : List α → List α
  | [] => []
  | a :: rest => if a ∈ seen then setGo seen rest else a :: setGo (a :: seen) rest

/-- Models `Array.from(new Set(l))`: first occurrences, insertion order. -/
def setFromList [DecidableEq α] (l : List α) : List α := setGo [] l

/-! ## Data model (from the jellyfin SDK types used by the source) -/

/-- `MediaStream.Type` values used by the player. -/
inductive StreamKind
  | Audio
  | Subtitle
  | Video
deriving DecidableEq, Repr

/-- One `MediaStream` entry of a `MediaSource` (fields the player reads). -/
structure MediaStream where
  streamKind : StreamKind
  IsTextSubtitleStream : Bool
  Index : Option Int
  DisplayTitle : Option String
deriving DecidableEq, Repr

/-- A `MediaSource` (fields read by the player and the download action). -/
structure MediaSource where
  MediaStreams : Option (List MediaStream)
  SupportsDirectPlay : Option Bool
deriving DecidableEq, Repr

/-- `BaseItemDto.UserData` (field read by the player). -/
structure UserData where
  PlaybackPositionTicks : Option Int
deriving DecidableEq, Repr

/-- A media item (fields the claims touch). -/
structure Item where
  Id : Option String
  CanDownload : Option Bool
  UserData : Option UserData
deriving DecidableEq, Repr

/-- The `stream` query result of the transcoding player:
`{ mediaSource, sessionId, url }`. -/
structure StreamInfo where
  mediaSource : MediaSource
  sessionId : String
  url : String
deriving DecidableEq, Repr

/-- Per-session launch configuration of the transcoding player: the item and
stream query results together with the parsed launch parameters. -/
structure SessionConfig where
  item : Option Item
  audioIndex : Option Int
  subtitleIndex : Option Int
  mediaSourceId : Option String
  stream : Option StreamInfo
deriving DecidableEq, Repr

/-- `react-native-video` `SelectedTrackType` (only `INDEX` is used). -/
inductive SelectedTrackType
  | INDEX
deriving DecidableEq, Repr

/-- A `react-native-video` `SelectedTrack` value. -/
structure SelectedTrack where
  trackKind : SelectedTrackType
  value : Int
deriving DecidableEq, Repr

/-- Mutable component state of the transcoding player that the claims touch.
`progressTicks` and `cacheProgressTicks` are the `progress` / `cacheProgress`
shared values (holding ticks); `selectedTextTrack` is the text-track
selection state. -/
structure PlayerState where
  isPlaybackStopped : Bool
  isPlaying : Bool
  isBuffering : Bool
  isSeeking : Bool
  progressTicks : ℚ
  cacheProgressTicks : ℚ
  selectedTextTrack : Option SelectedTrack
deriving DecidableEq, Repr

/-- Play method classification sent in reports. -/
inductive PlayMethod
  | Transcode
  | DirectStream
deriving DecidableEq, Repr

/-- Fields of a `onPlaybackStart` call. -/
structure StartReport where
  itemId : Option String
  audioStreamIndex : Option Int
  subtitleStreamIndex : Option Int
  mediaSourceId : Option String
  playMethod : PlayMethod
  playSessionId : Option String
deriving DecidableEq, Repr

/-- Fields of a `onPlaybackProgress` call. -/
structure ProgressReport where
  itemId : Option String
  audioStreamIndex : Option Int
  subtitleStreamIndex : Option Int
  mediaSourceId : Option String
  positionTicks : Int
  isPaused : Bool
  playMethod : PlayMethod
  playSessionId : Option String
deriving DecidableEq, Repr

/-- Fields of a `onPlaybackStopped` call. -/
structure StopReport where
  itemId : Option String
  mediaSourceId : Option String
  positionTicks : Int
  playSessionId : Option String
deriving DecidableEq, Repr

/-- One outbound call to the play-state service. -/
inductive Report
  | start : StartReport → Report
  | progress : ProgressReport → Report
  | stopped : StopReport → Report
deriving DecidableEq, Repr

/-- One command issued to the playback engine (the `videoRef`). -/
inductive EngineCmd
  | resume
  | pauseCmd
  | seekTo : ℚ → EngineCmd
deriving DecidableEq, Repr

/-- Result of one controller operation: the new component state, the engine
commands issued, and the play-state reports emitted, in order. -/
structure StepOut where
  state : PlayerState
  cmds : List EngineCmd
  reports : List Report
deriving DecidableEq, Repr

/-! ## Controller operations (transcoding-player.tsx) -/

/-- The guard `!item?.Id` used by the report functions: the item id, absent
when the item is missing, has no id, or the id is the empty string. -/
def sessionItemId (cfg : SessionConfig) : Option String :=
  truthyStr (cfg.item.bind Item.Id)

/-- `stream?.url.includes("m3u8") ? "Transcode" : "DirectStream"`. -/
def playMethodOf (stream : Option StreamInfo) : PlayMethod :=
  match stream with
  | some st => if strContains "m3u8" st.url then .Transcode else .DirectStream
  | none => .DirectStream

/-- `stream?.sessionId`. -/
def sessionIdOf (stream : Option StreamInfo) : Option String :=
  stream.map StreamInfo.sessionId

/-- `reportPlaybackStart`: sends `onPlaybackStart` unless `!item?.Id`. -/
def reportPlaybackStart (cfg : SessionConfig) : List Report :=
  match sessionItemId cfg with
  | none => []
  | some iid =>
    [Report.start
      { itemId := some iid
        audioStreamIndex := truthyIdx cfg.audioIndex
        subtitleStreamIndex := truthyIdx cfg.subtitleIndex
        mediaSourceId := cfg.mediaSourceId
        playMethod := playMethodOf cfg.stream
        playSessionId := sessionIdOf cfg.stream }]

/-- `reportPlaybackStopped`: sends `onPlaybackStopped` unless `!item?.Id`,
with `positionTicks = Math.floor(progress.value)`. -/
def reportPlaybackStopped (cfg : SessionConfig) (s : PlayerState) : List Report :=
  match sessionItemId cfg with
  | none => []
  | some iid =>
    [Report.stopped
      { itemId := some iid
        mediaSourceId := cfg.mediaSourceId
        positionTicks := jsFloor s.progressTicks
        playSessionId := sessionIdOf cfg.stream }]

/-- `play()`: resumes the engine and calls `reportPlaybackStart` — with no
check of `isPlaybackStopped` and no first-play gating. The `videoRef` is
modelled as attached. -/
def play (cfg : SessionConfig) (s : PlayerState) : StepOut :=
  { state := s, cmds := [.resume], reports := reportPlaybackStart cfg }

/-- `pause()`: pauses the engine; no state change, no report. -/
def pause (s : PlayerState) : StepOut :=
  { state := s, cmds := [.pauseCmd], reports := [] }

/-- `seek(seconds)`: forwards the seek to the engine. It does not touch
`isSeeking` (that shared value is written by the controls UI, outside this
component). -/
def seek (seconds : ℚ) (s : PlayerState) : StepOut :=
  { state := s, cmds := [.seekTo seconds], reports := [] }

/-- `stop()`: sets the `isPlaybackStopped` latch, pauses the engine and calls
`reportPlaybackStopped` — the report itself is not gated by the latch. -/
def stop (cfg : SessionConfig) (s : PlayerState) : StepOut :=
  { state := { s with isPlaybackStopped := true }
    cmds := [.pauseCmd]
    reports := reportPlaybackStopped cfg s }

/-- Modelled from the spec: `secondsToTicks` (utility not under src/); the
glossary fixes 10,000,000 ticks = 1 second. -/
def secondsToTicks (seconds : ℚ) : ℚ := seconds * 10000000

/-- The engine progress callback payload. -/
structure OnProgressData where
  currentTime : ℚ
  playableDuration : ℚ
deriving DecidableEq, Repr

/-- `onProgress`: discards the sample while `isSeeking` or after the stop
latch; otherwise overwrites `progress`/`cacheProgress`/`isBuffering`, and then
sends `onPlaybackProgress` unless `!item?.Id || data.currentTime === 0`. -/
def onProgress (cfg : SessionConfig) (data : OnProgressData) (s : PlayerState) :
    StepOut :=
  if s.isSeeking then { state := s, cmds := [], reports := [] }
  else if s.isPlaybackStopped then { state := s, cmds := [], reports := [] }
  else
    let ticks := secondsToTicks data.currentTime
    let s1 : PlayerState :=
      { s with
        progressTicks := ticks
        cacheProgressTicks := secondsToTicks data.playableDuration
        isBuffering := decide (data.playableDuration = 0) }
    match sessionItemId cfg with
    | none => { state := s1, cmds := [], reports := [] }
    | some iid =>
      if data.currentTime = 0 then { state := s1, cmds := [], reports := [] }
      else
        { state := s1
          cmds := []
          reports :=
            [Report.progress
              { itemId := some iid
                audioStreamIndex := truthyIdx cfg.audioIndex
                subtitleStreamIndex := truthyIdx cfg.subtitleIndex
                mediaSourceId := cfg.mediaSourceId
                positionTicks := jsRound ticks
                isPaused := !s.isPlaying
                playMethod := playMethodOf cfg.stream
                playSessionId := sessionIdOf cfg.stream }] }

/-- `togglePlay(ticks)`: pauses or resumes depending on `isPlaying` and sends
an `onPlaybackProgress` with `item?.Id!` (no id guard) and
`positionTicks = Math.floor(ticks)`. -/
def togglePlay (cfg : SessionConfig) (ticks : ℚ) (s : PlayerState) : StepOut :=
  if s.isPlaying then
    { state := s
      cmds := [.pauseCmd]
      reports :=
        [Report.progress
          { itemId := cfg.item.bind Item.Id
            audioStreamIndex := truthyIdx cfg.audioIndex
            subtitleStreamIndex := truthyIdx cfg.subtitleIndex
            mediaSourceId := cfg.mediaSourceId
            positionTicks := jsFloor ticks
            isPaused := true
            playMethod := playMethodOf cfg.stream
            playSessionId := sessionIdOf cfg.stream }] }
  else
    { state := s
      cmds := [.resume]
      reports :=
        [Report.progress
          { itemId := cfg.item.bind Item.Id
            audioStreamIndex := truthyIdx cfg.audioIndex
            subtitleStreamIndex := truthyIdx cfg.subtitleIndex
            mediaSourceId := cfg.mediaSourceId
            positionTicks := jsFloor ticks
            isPaused := false
            playMethod := playMethodOf cfg.stream
            playSessionId := sessionIdOf cfg.stream }] }

/-! ## Subtitle track catalog and initial selection -/

/-- `textSubs`: `stream?.mediaSource.MediaStreams?.filter(sub =>
sub.Type === "Subtitle" && sub.IsTextSubtitleStream) || []`. -/
def textSubs (stream : Option StreamInfo) : List MediaStream :=
  match stream with
  | none => []
  | some st =>
    (st.mediaSource.MediaStreams.getD []).filter
      (fun sub => decide (sub.streamKind = StreamKind.Subtitle) && sub.IsTextSubtitleStream)

/-- `uniqueTextSubs`: `Array.from(new Set(textSubs.map(sub =>
sub.DisplayTitle))).map(title => textSubs.find(sub =>
sub.DisplayTitle === title))`. -/
def uniqueTextSubs (stream : Option StreamInfo) : List (Option MediaStream) :=
  (setFromList ((textSubs stream).map MediaStream.DisplayTitle)).map
    (fun title => (textSubs stream).find? (fun sub => decide (sub.DisplayTitle = title)))

/-- `chosenSubtitleTrack`: `textSubs.find(sub => sub.Index === subtitleIndex)`. -/
def chosenSubtitleTrack (stream : Option StreamInfo) (subtitleIndex : Option Int) :
    Option MediaStream :=
  (textSubs stream).find? (fun sub => decide (sub.Index = subtitleIndex))

/-- Body of the `useEffect([embededTextTracks])` that applies the initial
subtitle selection: runs once per track-discovery event; returns the new
`selectedTextTrack` and whether `setSelectedTextTrack` was called. -/
def discoveryStep (stream : Option StreamInfo) (subtitleIndex : Option Int)
    (sel : Option SelectedTrack) : Option SelectedTrack × Bool :=
  match chosenSubtitleTrack stream subtitleIndex, sel with
  | some c, none =>
    (some { trackKind := .INDEX, value := jsIndexOf (uniqueTextSubs stream) (some c) }, true)
  | _, _ => (sel, false)

/-- Runs `n` successive track-discovery events from the initial (unset)
selection, counting how many times the selection was written. -/
def runDiscovery (stream : Option StreamInfo) (subtitleIndex : Option Int) :
    Nat → Option SelectedTrack × Nat
  | 0 => (none, 0)
  | n + 1 =>
    let (sel, k) := runDiscovery stream subtitleIndex n
    let (sel1, wrote) := discoveryStep stream subtitleIndex sel
    (sel1, k + (if wrote then 1 else 0))

/-! ## Iterated operations and report counting -/

/-- Whether a report is a `stopped` report. -/
def isStoppedReport : Report → Bool
  | .stopped _ => true
  | _ => false

/-- Whether a report is a `start` report. -/
def isStartReport : Report → Bool
  | .start _ => true
  | _ => false

/-- Number of `stopped` reports in a list. -/
def countStopped (l : List Report) : Nat := l.countP isStoppedReport

/-- Number of `start` reports in a list. -/
def countStart (l : List Report) : Nat := l.countP isStartReport

/-- `n` successive `stop()` calls (explicit, remote-command or teardown all
invoke the same `stop`), accumulating the reports emitted. -/
def iterStop (cfg : SessionConfig) : Nat → PlayerState → PlayerState × List Report
  | 0, s => (s, [])
  | n + 1, s =>
    let out := stop cfg s
    let (s1, rs) := iterStop cfg n out.state
    (s1, out.reports ++ rs)

/-- `n` successive `play()` calls, accumulating the reports emitted. -/
def iterPlay (cfg : SessionConfig) : Nat → PlayerState → PlayerState × List Report
  | 0, s => (s, [])
  | n + 1, s =>
    let out := play cfg s
    let (s1, rs) := iterPlay cfg n out.state
    (s1, out.reports ++ rs)

/-! ## Video source construction -/

/-- The engine source built by `useVideoSource` (fields the claims touch). -/
structure VideoSource where
  uri : String
  isNetwork : Bool
  startPosition : Int
deriving DecidableEq, Repr

/-- `useVideoSource` (transcoding-player.tsx): `null` without item, api or
url; `startPosition = item?.UserData?.PlaybackPositionTicks ?
Math.round(ticks / 10000) : 0`. -/
def useVideoSource (item : Option Item) (apiPresent : Bool)
    (url : Option String) : Option VideoSource :=
  match item, url with
  | some it, some u =>
    if apiPresent then
      let ticksOpt : Option Int := (it.UserData.bind UserData.PlaybackPositionTicks)
      let startPosition : Int :=
        match ticksOpt with
        | some t => if t = 0 then 0 else jsRound ((t : ℚ) / 10000)
        | none => 0
      some { uri := u, isNetwork := true, startPosition := startPosition }
    else none
  | _, _ => none

/-- `startPosition` of `VideoPlayer.tsx`:
`Math.round((item?.UserData?.PlaybackPositionTicks || 0) / 10000)`. -/
def vpStartPosition (item : Option Item) : Int :=
  let t : Int :=
    match item.bind (fun it => it.UserData.bind UserData.PlaybackPositionTicks) with
    | some t => t
    | none => 0
  jsRound ((t : ℚ) / 10000)

/-! ## Download action (DownloadItem component) -/

/-- `PlaybackInfoResponse` (field the download action reads). -/
structure PlaybackInfo where
  MediaSources : Option (List MediaSource)
deriving DecidableEq, Repr

/-- Outcome of `downloadFile`. -/
inductive DownloadResult
  | noPlaybackInfo
  | started
  | notDownloadable
deriving DecidableEq, Repr

/-- `downloadFile`: returns silently without playback info; starts the
download when `source?.SupportsDirectPlay && item.CanDownload`
(`source = playbackInfo.MediaSources?.[0]`); otherwise throws the
not-downloadable error. -/
def downloadFile (playbackInfo : Option PlaybackInfo) (item : Item) :
    DownloadResult :=
  match playbackInfo with
  | none => .noPlaybackInfo
  | some info =>
    let source : Option MediaSource := (info.MediaSources.getD []).head?
    let supportsDP : Bool :=
      match source with
      | some src => src.SupportsDirectPlay.getD false
      | none => false
    if supportsDP && item.CanDownload.getD false then .started
    else .notDownloadable

/-- The download action run against the whole controller: `downloadFile`
lives in a separate component with no access to the player state, so the
playback state passes through unchanged. -/
def downloadAction (playbackInfo : Option PlaybackInfo) (item : Item)
    (s : PlayerState) : PlayerState × DownloadResult :=
  (s, downloadFile playbackInfo item)

/-! ## Spec-side reference for the catalog deduplication (refinement target) -/

/-- Worker for `dedupByDisplayTitle`; `seen` holds the display titles already
emitted. -/
def dedupGo (seen : List (Option String)) : List MediaStream → List MediaStream
  | [] => []
  | s :: rest =>
    if s.DisplayTitle ∈ seen then dedupGo seen rest
    else s :: dedupGo (s.DisplayTitle :: seen) rest

/-- Written from the spec words: keep, in source order, only the first stream
carrying each display title. Compared against `uniqueTextSubs`. -/
def dedupByDisplayTitle (l : List MediaStream) : List MediaStream := dedupGo [] l

/-! ## Concrete fixtures -/

/-- First English text subtitle stream (server index 3). -/
def engStream1 : MediaStream :=
  { streamKind := .Subtitle, IsTextSubtitleStream := true
    Index := some 3, DisplayTitle := some "English" }

/-- Second English text subtitle stream (server index 4, duplicate title). -/
def engStream2 : MediaStream :=
  { streamKind := .Subtitle, IsTextSubtitleStream := true
    Index := some 4, DisplayTitle := some "English" }

/-- Commentary text subtitle stream (server index 5). -/
def commentaryStream : MediaStream :=
  { streamKind := .Subtitle, IsTextSubtitleStream := true
    Index := some 5, DisplayTitle := some "Director\x27s Commentary" }

/-- A media source carrying the three example subtitle streams. -/
def exampleSource : MediaSource :=
  { MediaStreams := some [engStream1, engStream2, commentaryStream]
    SupportsDirectPlay := some true }

/-- A resolved stream over `exampleSource` with a transcoding url. -/
def exampleStream : StreamInfo :=
  { mediaSource := exampleSource
    sessionId := "sess1"
    url := "http://example/master.m3u8" }

/-- A loaded session configuration (item present, indices 1 and 5). -/
def cfg0 : SessionConfig :=
  { item := some { Id := some "item1", CanDownload := some true
                   UserData := some { PlaybackPositionTicks := some 0 } }
    audioIndex := some 1
    subtitleIndex := some 5
    mediaSourceId := some "ms1"
    stream := some exampleStream }

/-- Initial component state. -/
def st0 : PlayerState :=
  { isPlaybackStopped := false, isPlaying := false, isBuffering := true
    isSeeking := false, progressTicks := 0, cacheProgressTicks := 0
    selectedTextTrack := none }

/-- State while a seek is in flight (the controls set `isSeeking`). -/
def seekingState : PlayerState :=
  { st0 with isSeeking := true, progressTicks := 100000000 }

/-- State after playback advanced to 30 s (300000000 ticks). -/
def advancedState : PlayerState := { st0 with progressTicks := 300000000 }

/-- State after the stop latch was set. -/
def stoppedState : PlayerState := { st0 with isPlaybackStopped := true }

/-! ## C1: stop reporting -/

/-- C1 counterexample: with a loaded item, two `stop()` calls (any
interleaving of explicit stop, remote stop and teardown goes through the same
`stop`) emit two `stopped` reports, not one — the `isPlaybackStopped` latch
does not gate `reportPlaybackStopped`. -/
theorem stop_twice_two_stopped_reports :
    countStopped (iterStop cfg0 2 st0).2 = 2 ∧
      ¬ countStopped (iterStop cfg0 2 st0).2 = 1 := by
  decide

/-- C1 amended: with a loaded item, every one of the `n` `stop()` calls emits
its own `stopped` report (`n` calls, `n` reports), and from the first call on
the `isPlaybackStopped` latch is set — the latch gates progress reporting,
not the stop report. -/
theorem stop_reports_once_per_call (cfg : SessionConfig) (s : PlayerState)
    (n : Nat) (h : (sessionItemId cfg).isSome = true) :
    countStopped (iterStop cfg n s).2 = n ∧
      (1 ≤ n → (iterStop cfg n s).1.isPlaybackStopped = true) := by
  obtain ⟨iid, hiid⟩ := Option.isSome_iff_exists.mp h
  induction n generalizing s with
  | zero => simp [iterStop, countStopped]
  | succ n ih =>
    have hstep : countStopped (stop cfg s).reports = 1 := by
      simp [stop, reportPlaybackStopped, hiid, countStopped,
        List.countP_cons, List.countP_nil, isStoppedReport]
    constructor
    · simp only [iterStop, countStopped, List.countP_append]
      have h1 := (ih (stop cfg s).state).1
      simp only [countStopped] at h1 hstep
      omega
    · intro _
      rcases Nat.eq_zero_or_pos n with hn | hn
      · subst hn
        simp [iterStop, stop]
      · have h2 := (ih (stop cfg s).state).2 hn
        simpa [iterStop] using h2

/-- C1 witness: three stops on the loaded session emit three stopped
reports and leave the latch set. -/
theorem stop_reports_once_per_call_witness :
    countStopped (iterStop cfg0 3 st0).2 = 3 ∧
      (iterStop cfg0 3 st0).1.isPlaybackStopped = true := by
  have h := stop_reports_once_per_call cfg0 st0 3 (by decide)
  exact ⟨h.1, h.2 (by decide)⟩

/-! ## C2: start reporting -/

/-- C2 counterexample: with a loaded item, two `play()` calls emit two
`start` reports, not one — `reportPlaybackStart` is called on every `play()`
with no first-play gating. -/
theorem play_twice_two_start_reports :
    countStart (iterPlay cfg0 2 st0).2 = 2 ∧
      ¬ countStart (iterPlay cfg0 2 st0).2 = 1 := by
  decide

/-- C2 amended: with a loaded item, every one of the `n` `play()` calls emits
its own `start` report (`n` calls, `n` reports), the component state is
untouched by `play()`, and `pause()` emits no report at all. -/
theorem play_reports_start_each_call (cfg : SessionConfig) (s : PlayerState)
    (n : Nat) (h : (sessionItemId cfg).isSome = true) :
    countStart (iterPlay cfg n s).2 = n ∧ (iterPlay cfg n s).1 = s ∧
      (∀ s1 : PlayerState, (pause s1).reports = []) := by
  obtain ⟨iid, hiid⟩ := Option.isSome_iff_exists.mp h
  refine ⟨?_, ?_, fun s1 => rfl⟩
  · induction n generalizing s with
    | zero => simp [iterPlay, countStart]
    | succ n ih =>
      have hstep : countStart (play cfg s).reports = 1 := by
        simp [play, reportPlaybackStart, hiid, countStart,
          List.countP_cons, List.countP_nil, isStartReport]
      simp only [iterPlay, countStart, List.countP_append]
      have h1 := ih (play cfg s).state
      simp only [countStart] at h1 hstep
      omega
  · induction n generalizing s with
    | zero => rfl
    | succ n ih => simpa [iterPlay, play] using ih s

/-- C2 witness: three plays on the loaded session emit three start reports
and do not change the state. -/
theorem play_reports_start_each_call_witness :
    countStart (iterPlay cfg0 3 st0).2 = 3 ∧ (iterPlay cfg0 3 st0).1 = st0 := by
  have h := play_reports_start_each_call cfg0 st0 3 (by decide)
  exact ⟨h.1, h.2.1⟩

/-! ## C3: seek suppression -/

/-- C3 counterexample: with `isSeeking` set (by the controls) around a
`seek()`, the engine's next progress callback emits no report and leaves
`isSeeking` true — `onProgress` never clears the flag, so it is not the case
that exactly one report resumes and `isSeeking` becomes false. -/
theorem progress_during_seek_no_report_flag_kept :
    (onProgress cfg0 { currentTime := 30, playableDuration := 10 }
        ((seek 30 seekingState).state)).reports = [] ∧
      (onProgress cfg0 { currentTime := 30, playableDuration := 10 }
        ((seek 30 seekingState).state)).state.isSeeking = true := by
  decide

/-- C3 amended: while `isSeeking` is true the progress callback emits no
report and leaves the whole state unchanged; neither `seek()` nor the
progress callback writes `isSeeking` (the flag is managed by the controls UI,
outside this component); once `isSeeking` is false and the session is not
stopped, a progress callback with a loaded item and nonzero `currentTime`
emits exactly one progress report. -/
theorem seek_suppression_and_resume (cfg : SessionConfig)
    (data : OnProgressData) (s : PlayerState) (seconds : ℚ) :
    (seek seconds s).state = s ∧
      (s.isSeeking = true →
        onProgress cfg data s = { state := s, cmds := [], reports := [] }) ∧
      (s.isSeeking = false → s.isPlaybackStopped = false →
        (sessionItemId cfg).isSome = true → ¬ data.currentTime = 0 →
        (onProgress cfg data s).reports.length = 1 ∧
          (onProgress cfg data s).state.isSeeking = false) := by
  refine ⟨rfl, ?_, ?_⟩
  · intro hseek
    simp [onProgress, hseek]
  · intro hseek hstop hitem hzero
    obtain ⟨iid, hiid⟩ := Option.isSome_iff_exists.mp hitem
    simp [onProgress, hseek, hstop, hiid, hzero]

/-- C3 witness: on the loaded session, the seeking state swallows the sample
and keeps the flag; the non-seeking state emits exactly one report. -/
theorem seek_suppression_and_resume_witness :
    onProgress cfg0 { currentTime := 30, playableDuration := 10 } seekingState
        = { state := seekingState, cmds := [], reports := [] } ∧
      (onProgress cfg0 { currentTime := 30, playableDuration := 10 }
        st0).reports.length = 1 := by
  refine ⟨(seek_suppression_and_resume cfg0
      { currentTime := 30, playableDuration := 10 } seekingState 30).2.1 (by decide), ?_⟩
  exact ((seek_suppression_and_resume cfg0
      { currentTime := 30, playableDuration := 10 } st0 30).2.2
    (by decide) (by decide) (by decide) (by decide)).1

/-! ## C4: zero-position samples -/

/-- C4 counterexample: after playback advanced to 300000000 ticks, a
`currentTime == 0` sample emits no report but overwrites the local position
to 0 — the position regression is recorded, because `progress.value` is
written before the zero check. -/
theorem zero_sample_overwrites_position :
    (onProgress cfg0 { currentTime := 0, playableDuration := 5 }
        advancedState).reports = [] ∧
      (onProgress cfg0 { currentTime := 0, playableDuration := 5 }
        advancedState).state.progressTicks = 0 ∧
      advancedState.progressTicks = 300000000 := by
  refine ⟨?_, ?_, rfl⟩ <;>
    simp [onProgress, advancedState, st0, cfg0, sessionItemId, truthyStr,
      secondsToTicks]

/-- C4 amended: when neither seeking nor stopped, a `currentTime == 0`
progress sample emits no report, but the local playback position is still
overwritten with 0 (only the report is suppressed; the state update runs
before the zero check). -/
theorem zero_sample_drops_report_but_resets_position (cfg : SessionConfig)
    (data : OnProgressData) (s : PlayerState)
    (hseek : s.isSeeking = false) (hstop : s.isPlaybackStopped = false)
    (hzero : data.currentTime = 0) :
    (onProgress cfg data s).reports = [] ∧
      (onProgress cfg data s).state.progressTicks = 0 := by
  cases hid : sessionItemId cfg with
  | none => simp [onProgress, hseek, hstop, hzero, hid, secondsToTicks]
  | some iid => simp [onProgress, hseek, hstop, hzero, hid, secondsToTicks]

/-- C4 witness: the advanced session state at a zero sample. -/
theorem zero_sample_drops_report_but_resets_position_witness :
    (onProgress cfg0 { currentTime := 0, playableDuration := 5 }
        advancedState).reports = [] ∧
      (onProgress cfg0 { currentTime := 0, playableDuration := 5 }
        advancedState).state.progressTicks = 0 :=
  zero_sample_drops_report_but_resets_position cfg0
    { currentTime := 0, playableDuration := 5 } advancedState
    (by decide) (by decide) (by decide)

/-! ## C5: play after stop -/

/-- C5 counterexample: in the stopped state (latch set), `play()` on the
loaded session still commands the engine to resume and still emits a start
report — it is not a no-op. -/
theorem play_after_stop_not_noop :
    (play cfg0 stoppedState).cmds = [EngineCmd.resume] ∧
      countStart (play cfg0 stoppedState).reports = 1 := by
  decide

/-- C5 amended: `play()` ignores the `isPlaybackStopped` latch: even after
`stop()`, it commands the engine to resume and emits whatever
`reportPlaybackStart` produces (a start report whenever the item is loaded);
the latch only suppresses progress reporting, whose callback then leaves the
state unchanged. -/
theorem play_ignores_stop_latch (cfg : SessionConfig) (s : PlayerState)
    (h : s.isPlaybackStopped = true) :
    (play cfg s).cmds = [EngineCmd.resume] ∧
      (play cfg s).reports = reportPlaybackStart cfg ∧
      (∀ data : OnProgressData,
        (onProgress cfg data s).reports = [] ∧ (onProgress cfg data s).state = s) := by
  refine ⟨rfl, rfl, fun data => ?_⟩
  cases hs : s.isSeeking with
  | true => simp [onProgress, hs]
  | false => simp [onProgress, hs, h]

/-- C5 witness: the stopped state of the loaded session. -/
theorem play_ignores_stop_latch_witness :
    (play cfg0 stoppedState).cmds = [EngineCmd.resume] ∧
      (play cfg0 stoppedState).reports = reportPlaybackStart cfg0 ∧
      (onProgress cfg0 { currentTime := 7, playableDuration := 3 }
          stoppedState).reports = [] := by
  have h := play_ignores_stop_latch cfg0 stoppedState (by decide)
  exact ⟨h.1, h.2.1, (h.2.2 { currentTime := 7, playableDuration := 3 }).1⟩

/-! ## C6: start position resolution -/

/-- Item with a resume position of 1200000000 ticks (120 s). -/
def itemWithTicks : Item :=
  { Id := some "item6", CanDownload := some true
    UserData := some { PlaybackPositionTicks := some 1200000000 } }

/-- C6 counterexample: for 1200000000 ticks the start offset handed to the
engine is 120000 (ticks / 10000 = milliseconds; 120 s = 120000 ms), not
12000 — in both `useVideoSource` and `VideoPlayer`'s `startPosition`. -/
theorem startPosition_not_12000 :
    (useVideoSource (some itemWithTicks) true (some "http://u")).map
        VideoSource.startPosition = some 120000 ∧
      vpStartPosition (some itemWithTicks) = 120000 ∧
      ¬ (useVideoSource (some itemWithTicks) true (some "http://u")).map
          VideoSource.startPosition = some 12000 := by
  refine ⟨?_, ?_, ?_⟩ <;>
    norm_num [useVideoSource, vpStartPosition, itemWithTicks, jsRound, jsFloor,
      Rat.floor_def']

/-- C6 amended: an item with `PlaybackPositionTicks = 1200000000` launched
with no constraints resolves to start position 120000, computed as ticks
divided by 10000 (milliseconds). -/
theorem startPosition_120000 :
    useVideoSource (some itemWithTicks) true (some "http://u")
        = some { uri := "http://u", isNetwork := true, startPosition := 120000 } ∧
      vpStartPosition (some itemWithTicks) = 120000 := by
  constructor <;>
    norm_num [useVideoSource, vpStartPosition, itemWithTicks, jsRound, jsFloor,
      Rat.floor_def']

/-! ## C7: subtitle catalog deduplication -/

/-- `find?` skips a prefix on which the predicate is false. -/
theorem find_append_none {α : Type} (p : α → Bool) (pre l : List α)
    (h : ∀ x ∈ pre, p x = false) :
    List.find? p (pre ++ l) = List.find? p l := by
  induction pre with
  | nil => rfl
  | cons a as ih =>
    have ha : p a = false := h a (List.mem_cons_self a as)
    rw [List.cons_append, List.find?_cons, ha]
    exact ih fun x hx => h x (List.mem_cons_of_mem a hx)

/-- Worker equivalence: mapping `find?` over the Set-deduplicated titles of
the remaining streams recovers exactly the first-occurrence deduplication,
provided `seen` holds exactly the titles of the already-consumed prefix. -/
theorem setGo_find_eq_dedupGo (l : List MediaStream) :
    ∀ (pre : List MediaStream) (seen : List (Option String)),
      (∀ t, t ∈ seen ↔ t ∈ pre.map MediaStream.DisplayTitle) →
      ((setGo seen (l.map MediaStream.DisplayTitle)).map
          (fun title => (pre ++ l).find?
            (fun sub => decide (sub.DisplayTitle = title))))
        = (dedupGo seen l).map some := by
  induction l with
  | nil => intro pre seen _; rfl
  | cons s rest ih =>
    intro pre seen hseen
    have hpre : pre ++ s :: rest = (pre ++ [s]) ++ rest := by simp
    by_cases hmem : s.DisplayTitle ∈ seen
    · rw [List.map_cons]
      show (setGo seen (s.DisplayTitle :: rest.map MediaStream.DisplayTitle)).map _
          = (dedupGo seen (s :: rest)).map some
      rw [setGo, if_pos hmem, dedupGo, if_pos hmem, hpre]
      exact ih (pre ++ [s]) seen (by
        intro t
        simp only [List.map_append, List.map_cons, List.map_nil, List.mem_append,
          List.mem_singleton]
        constructor
        · intro ht; exact Or.inl ((hseen t).mp ht)
        · rintro (ht | ht)
          · exact (hseen t).mpr ht
          · rw [ht]; exact hmem)
    · rw [List.map_cons]
      show (setGo seen (s.DisplayTitle :: rest.map MediaStream.DisplayTitle)).map _
          = (dedupGo seen (s :: rest)).map some
      rw [setGo, if_neg hmem, dedupGo, if_neg hmem]
      rw [List.map_cons, List.map_cons]
      congr 1
      · have hnone : ∀ x ∈ pre,
            (fun sub => decide (sub.DisplayTitle = s.DisplayTitle)) x = false := by
          intro x hx
          simp only [decide_eq_false_iff_not]
          intro hx2
          exact hmem ((hseen s.DisplayTitle).mpr
            (by rw [← hx2]; exact List.mem_map_of_mem MediaStream.DisplayTitle hx))
        rw [find_append_none _ pre (s :: rest) hnone, List.find?_cons,
          decide_eq_true (rfl : s.DisplayTitle = s.DisplayTitle)]
      · rw [hpre]
        exact ih (pre ++ [s]) (s.DisplayTitle :: seen) (by
          intro t
          simp only [List.map_append, List.map_cons, List.map_nil, List.mem_append,
            List.mem_singleton, List.mem_cons, List.not_mem_nil, or_false]
          constructor
          · rintro (ht | ht)
            · exact Or.inr ht
            · exact Or.inl ((hseen t).mp ht)
          · rintro (ht | ht)
            · exact Or.inr ((hseen t).mpr ht)
            · exact Or.inl ht)

/-- The catalog computed by the component equals the spec-side
first-occurrence deduplication of the filtered text subtitle streams. -/
theorem uniqueTextSubs_eq_dedup (stream : Option StreamInfo) :
    uniqueTextSubs stream = (dedupByDisplayTitle (textSubs stream)).map some := by
  have h := setGo_find_eq_dedupGo (textSubs stream) [] []
    (by intro t; simp)
  simpa [uniqueTextSubs, dedupByDisplayTitle, setFromList] using h

/-- C7: the subtitle catalog is exactly the text subtitle streams of the
media source, deduplicated by display title keeping the first stream per
title in source order; in particular display titles
["English", "English", "Director\x27s Commentary"] yield exactly the first
English stream followed by the commentary stream. -/
theorem subtitle_catalog_dedup :
    (∀ stream : Option StreamInfo,
      uniqueTextSubs stream = (dedupByDisplayTitle (textSubs stream)).map some) ∧
      uniqueTextSubs (some exampleStream) = [some engStream1, some commentaryStream] := by
  refine ⟨uniqueTextSubs_eq_dedup, by decide⟩

/-! ## C8: initial subtitle selection -/

/-- C8: when a subtitle index was requested at launch and it matches a
server-declared text stream, any run of `n ≥ 1` track-discovery events
applies the selection exactly once, setting it to the position of the first
stream with that index inside the deduplicated catalog; every later
discovery event leaves the selection untouched. -/
theorem initial_subtitle_selection_once (stream : Option StreamInfo)
    (subtitleIndex : Option Int) (n : Nat) (hn : 1 ≤ n) (c : MediaStream)
    (hc : chosenSubtitleTrack stream subtitleIndex = some c) :
    runDiscovery stream subtitleIndex n =
      (some { trackKind := SelectedTrackType.INDEX
              value := jsIndexOf (uniqueTextSubs stream) (some c) }, 1) := by
  induction n with
  | zero => omega
  | succ n ih =>
    cases n with
    | zero => simp [runDiscovery, discoveryStep, hc]
    | succ m =>
      have h := ih (by omega)
      rw [runDiscovery, h]
      simp [discoveryStep, hc]

/-- C8 witness: on the example session (requested subtitle index 5, matching
the commentary stream), three discovery events yield one write selecting
catalog position 1. -/
theorem initial_subtitle_selection_once_witness :
    runDiscovery (some exampleStream) (some 5) 3 =
      (some { trackKind := SelectedTrackType.INDEX, value := 1 }, 1) := by
  have h := initial_subtitle_selection_once (some exampleStream) (some 5) 3
    (by decide) commentaryStream (by decide)
  rw [h]
  decide

/-! ## C9: download action -/

/-- A media source that cannot be direct played. -/
def ndSource : MediaSource := { MediaStreams := none, SupportsDirectPlay := some false }

/-- Playback info whose first media source is `ndSource`. -/
def ndInfo : PlaybackInfo := { MediaSources := some [ndSource] }

/-- A downloadable-flagged item. -/
def ndItem : Item := { Id := some "d1", CanDownload := some true, UserData := none }

/-- C9: with playback info resolved and a first media source present,
`downloadFile` rejects with the not-downloadable error exactly when that
source does not support direct play or the item is not flagged downloadable;
otherwise it starts the download; and the action never touches the playback
state. -/
theorem downloadFile_not_downloadable_iff (info : PlaybackInfo) (item : Item)
    (src : MediaSource) (rest : List MediaSource)
    (hsrc : info.MediaSources = some (src :: rest)) :
    (downloadFile (some info) item = DownloadResult.notDownloadable ↔
      ¬ (src.SupportsDirectPlay.getD false = true ∧
          item.CanDownload.getD false = true)) ∧
      (¬ downloadFile (some info) item = DownloadResult.notDownloadable →
        downloadFile (some info) item = DownloadResult.started) ∧
      (∀ s : PlayerState, (downloadAction (some info) item s).1 = s) := by
  refine ⟨?_, ?_, fun s => rfl⟩ <;>
    · simp only [downloadFile, hsrc, Option.getD_some, List.head?_cons]
      by_cases h1 : src.SupportsDirectPlay.getD false = true <;>
        by_cases h2 : item.CanDownload.getD false = true <;>
          simp [h1, h2]

/-- C9 witness: a direct-play-incapable source is rejected as
not-downloadable and the playback state passes through unchanged. -/
theorem downloadFile_not_downloadable_iff_witness :
    downloadFile (some ndInfo) ndItem = DownloadResult.notDownloadable ∧
      (downloadAction (some ndInfo) ndItem st0).1 = st0 := by
  have h := downloadFile_not_downloadable_iff ndInfo ndItem ndSource [] rfl
  exact ⟨h.1.mpr (by decide), h.2.2 st0⟩

/-! ## C10: stream index forwarding in reports -/

/-- The `audioStreamIndex` field carried by a report, when it has one. -/
def Report.audioIdx : Report → Option (Option Int)
  | .start r => some r.audioStreamIndex
  | .progress r => some r.audioStreamIndex
  | .stopped _ => none

/-- The `subtitleStreamIndex` field carried by a report, when it has one. -/
def Report.subIdx : Report → Option (Option Int)
  | .start r => some r.subtitleStreamIndex
  | .progress r => some r.subtitleStreamIndex
  | .stopped _ => none

/-- Launch configuration with a negative requested audio index. -/
def cfgNeg : SessionConfig := { cfg0 with audioIndex := some (-1) }

/-- C10 counterexample: a launch-requested audio index of -1 is truthy in
JS, so it is forwarded as `audioStreamIndex = -1` in the toggle-play
progress report — a forwarded index that is not strictly positive. -/
theorem negative_index_forwarded :
    ((togglePlay cfgNeg 5 st0).reports.map Report.audioIdx)
        = [some (some (-1))] ∧
      ¬ (0 : Int) < -1 := by
  constructor
  · simp [togglePlay, cfgNeg, cfg0, st0, truthyIdx, Report.audioIdx]
  · decide

/-- Launch configuration with requested index 0 (falsy in JS). -/
def cfgZero : SessionConfig := { cfg0 with audioIndex := some 0 }

/-- The first report emitted by `togglePlay` on the zero-index session. -/
def zeroIdxReport : Report :=
  match (togglePlay cfgZero 5 st0).reports with
  | r :: _ => r
  | [] => Report.stopped { itemId := none, mediaSourceId := none
                           positionTicks := 0, playSessionId := none }

/-- C10 amended: every playstate report the player emits (toggle-play
progress, start, and periodic progress) carries
`audioStreamIndex`/`subtitleStreamIndex` obtained by the JS truthiness guard:
an absent or zero launch index is sent as absent (server default), and any
nonzero index — positive or negative — is forwarded unchanged. -/
theorem index_forwarding_truthy (cfg : SessionConfig) :
    (∀ i : Int, truthyIdx (some i) = if i = 0 then none else some i) ∧
      truthyIdx none = none ∧
      (∀ (ticks : ℚ) (s : PlayerState) (r : Report),
        r ∈ (togglePlay cfg ticks s).reports →
        Report.audioIdx r = some (truthyIdx cfg.audioIndex) ∧
          Report.subIdx r = some (truthyIdx cfg.subtitleIndex)) ∧
      (∀ (s : PlayerState) (r : Report), r ∈ (play cfg s).reports →
        Report.audioIdx r = some (truthyIdx cfg.audioIndex) ∧
          Report.subIdx r = some (truthyIdx cfg.subtitleIndex)) ∧
      (∀ (data : OnProgressData) (s : PlayerState) (r : Report),
        r ∈ (onProgress cfg data s).reports →
        Report.audioIdx r = some (truthyIdx cfg.audioIndex) ∧
          Report.subIdx r = some (truthyIdx cfg.subtitleIndex)) := by
  refine ⟨fun i => rfl, rfl, ?_, ?_, ?_⟩
  · intro ticks s r hr
    cases hp : s.isPlaying <;>
      · simp only [togglePlay, hp] at hr
        simp only [Bool.false_eq_true, if_false, if_true, List.mem_singleton] at hr
        subst hr
        exact ⟨rfl, rfl⟩
  · intro s r hr
    simp only [play, reportPlaybackStart] at hr
    cases hid : sessionItemId cfg with
    | none => rw [hid] at hr; simp at hr
    | some iid =>
      rw [hid] at hr
      simp only [List.mem_singleton] at hr
      subst hr
      exact ⟨rfl, rfl⟩
  · intro data s r hr
    by_cases hseek : s.isSeeking = true
    · simp [onProgress, hseek] at hr
    · by_cases hstop : s.isPlaybackStopped = true
      · simp [onProgress, hseek, hstop] at hr
      · simp only [onProgress, Bool.not_eq_true] at hr
        rw [Bool.not_eq_true] at hseek hstop
        simp only [hseek, hstop, Bool.false_eq_true, if_false] at hr
        cases hid : sessionItemId cfg with
        | none => rw [hid] at hr; simp at hr
        | some iid =>
          rw [hid] at hr
          by_cases hz : data.currentTime = 0
          · simp [hz] at hr
          · simp only [hz, if_false, List.mem_singleton] at hr
            subst hr
            exact ⟨rfl, rfl⟩

/-- C10 witness: on the zero-index session the emitted toggle-play report
carries an absent audio index. -/
theorem index_forwarding_truthy_witness :
    Report.audioIdx zeroIdxReport = some none ∧ truthyIdx (some 0) = none := by
  constructor
  · have h := ((index_forwarding_truthy cfgZero).2.2.1 5 st0 zeroIdxReport
      (by decide)).1
    rw [h]
    decide
  · have h := (index_forwarding_truthy cfgZero).1 0
    simpa using h

end Streamyfin
